import Mathlib

/-!
Verification of the CRM GraphQL mutation layer (crm/schema.py) against its
natural-language specification.

The embedding models the four mutations of crm/schema.py — CreateCustomer,
BulkCreateCustomers, CreateProduct and CreateOrder — as pure functions over an
explicit store (`DB`).  Pieces of the repository that are not under src/
(crm/models.py: the Customer/Product/Order models, the order-total computation,
and the unique-email constraint) are modelled from the spec; each such
definition carries a doc comment starting with "Modelled from the spec:".

Python strings are Lean `String`s; the decimal prices are `Rat` (the mutations
only add and compare them, which is exact decimal arithmetic); GraphQL ids are
opaque keys modelled as `Nat`.  A Python exception that escapes a mutation is
an `Except`-error result; exceptions raised and caught inside a mutation are
modelled by the intermediate `RowExc` type.
-/

/-! ### String utilities mirroring the Python operations used by schema.py -/

/-- Does the character list `n` occur as a leading block of `l`? -/
def listStartsWith : List Char → List Char → Bool
  | [], _ => true
  | _ :: _, [] => false
  | a :: as, b :: bs => a == b && listStartsWith as bs

/-- Does the character list `n` occur contiguously anywhere inside `h`?
This is the semantics of the Python substring test `n in h`. -/
def listOccursIn (n : List Char) : List Char → Bool
  | [] => n.isEmpty
  | c :: t => listStartsWith n (c :: t) || listOccursIn n t

/-- Python `needle in hay` on strings. -/
def strContains (hay needle : String) : Bool :=
  listOccursIn needle.data hay.data

/-- Python `str.lower()` (the strings handled here are ASCII). -/
def lowerString (s : String) : String :=
  ⟨s.data.map Char.toLower⟩

/-- A single-quote character, U+0027. -/
def squote : String := String.singleton (Char.ofNat 39)

/-- Python `str(e)` for a Django ValidationError built from one plain string
message `m`: Django renders `repr([m])`, i.e. the message wrapped in
square brackets and single quotes.  (The messages occurring in schema.py
contain no quote characters themselves.) -/
def pyReprList1 (m : String) : String :=
  "[" ++ squote ++ m ++ squote ++ "]"

/-- Decimal digits of `n`, most significant first, prepended to `acc`;
mirrors Python `str(i)` for a nonnegative integer. -/
def natDigitsAux (n : Nat) (acc : List Char) : List Char :=
  let d : Char := Char.ofNat (48 + n % 10)
  if h : n < 10 then d :: acc
  else natDigitsAux (n / 10) (d :: acc)
decreasing_by exact Nat.div_lt_self (by omega) (by omega)

/-- Python `str(n)` for a natural number. -/
def natStr (n : Nat) : String := ⟨natDigitsAux n []⟩

/-! ### Data model -/

/-- A stored Customer row.  Modelled from the spec: crm/models.py is not under
src/; per the spec a Customer has id, name, email and an optional phone
(stored as the empty string when absent, matching `input.phone or ""`). -/
structure Customer where
  id : Nat
  name : String
  email : String
  phone : String
deriving DecidableEq

/-- A stored Product row.  Modelled from the spec: id, name, decimal price,
integer stock. -/
structure Product where
  id : Nat
  name : String
  price : Rat
  stock : Int
deriving DecidableEq

/-- A stored Order row.  Modelled from the spec: an order references one
customer and a set of products, and `total_amount` is derived at save time
as the sum of the linked products' prices. -/
structure Order where
  id : Nat
  customerId : Nat
  productIds : List Nat
  totalAmount : Rat
deriving DecidableEq

/-- The persistent store the mutations read and write. -/
structure DB where
  customers : List Customer
  products : List Product
  orders : List Order
deriving DecidableEq

/-- The GraphQL error payload `{field, messages}` (ErrorType in schema.py). -/
structure ErrorType where
  field : String
  messages : List String
deriving DecidableEq

/-- Argument object of createCustomer and of each bulkCreateCustomers row. -/
structure CustomerInput where
  name : String
  email : String
  phone : Option String := none
deriving DecidableEq

/-- Argument object of createProduct. -/
structure ProductInput where
  name : String
  price : Rat
  stock : Option Int := none
deriving DecidableEq

/-- Argument object of createOrder.  The schema also declares an optional
`order_date` argument, but CreateOrder.mutate never reads it, so it is not
carried here. -/
structure OrderInput where
  customer_id : Nat
  product_ids : List Nat
deriving DecidableEq

/-- Result object of CreateCustomer: graphene fields left unset resolve to
null, hence the `Option` around `success`. -/
structure CreateCustomerResult where
  customer : Option Customer
  errors : Option ErrorType
  success : Option Bool
deriving DecidableEq

/-- Result object of BulkCreateCustomers. -/
structure BulkCreateCustomersResult where
  customers : List Customer
  errors : List ErrorType
  success : Bool
deriving DecidableEq

/-- Result object of CreateProduct. -/
structure CreateProductResult where
  product : Option Product
  errors : Option ErrorType
  success : Option Bool
deriving DecidableEq

/-- Result object of CreateOrder. -/
structure CreateOrderResult where
  order : Option Order
  errors : Option ErrorType
  success : Option Bool
deriving DecidableEq

/-- An exception raised inside a mutation body and caught by its own
`except` clauses: a Django ValidationError carrying a plain string message
(every ValidationError raised in schema.py is built from a single string,
never from a dict), or a database IntegrityError. -/
inductive RowExc where
  | validationStr (msg : String)
  | integrity (msg : String)
deriving DecidableEq

/-- An exception that escapes a mutation to the transport layer. -/
inductive PyExc where
  | attributeError (msg : String)
deriving DecidableEq

/-! ### Validators -/

/-- The character class `[-.\s]` of the phone regex: dash, dot, or an ASCII
whitespace character (Python `\s`). -/
def sepChar (c : Char) : Bool :=
  c == '-' || c == '.' || c == ' ' || c == Char.ofNat 9 || c == Char.ofNat 10 ||
    c == Char.ofNat 11 || c == Char.ofNat 12 || c == Char.ofNat 13

/-- Match exactly `n` decimal digits, returning the rest of the input. -/
def takeDigits : Nat → List Char → Option (List Char)
  | 0, cs => some cs
  | _ + 1, [] => none
  | n + 1, c :: cs => if c.isDigit then takeDigits n cs else none

/-- Consume one optional separator character (`[-.\s]?`). -/
def dropOptSep : List Char → List Char
  | [] => []
  | c :: cs => if sepChar c then cs else c :: cs

/-- Python `re.match` of the phone pattern used by both customer mutations:
optional leading plus, three digits, optional separator, three digits,
optional separator, four digits, end of string.  Python `$` also matches
just before one trailing newline. -/
def phone_regex_match (s : String) : Bool :=
  let cs := match s.data with
    | '+' :: rest => rest
    | cs => cs
  match takeDigits 3 cs with
  | none => false
  | some cs1 =>
    match takeDigits 3 (dropOptSep cs1) with
    | none => false
    | some cs2 =>
      match takeDigits 4 (dropOptSep cs2) with
      | none => false
      | some rest => rest.isEmpty || rest == [Char.ofNat 10]

/-- Split a character list at its first at-sign, if any. -/
def splitFirstAt : List Char → Option (List Char × List Char)
  | [] => none
  | c :: cs =>
    if c = '@' then some ([], cs)
    else
      match splitFirstAt cs with
      | none => none
      | some (l, r) => some (c :: l, r)

/-- Modelled from the spec: Django `validate_email` is an external validator
whose exact grammar is outside the repository; the spec asks that the email
"must match standard email-address grammar".  Modelled as: exactly one at
sign separating a nonempty local part from a nonempty domain that contains a
dot. -/
def validate_email_ok (s : String) : Bool :=
  match splitFirstAt s.data with
  | none => false
  | some (lp, dom) =>
      !lp.isEmpty && !dom.isEmpty && !dom.contains '@' && dom.contains '.'

/-- Python truthiness of the optional phone argument: `None` and the empty
string are falsy. -/
def pyTruthyStr : Option String → Bool
  | none => false
  | some s => !s.isEmpty

/-! ### Persistence primitives -/

/-- Modelled from the spec: saving a Customer row (crm/models.py is not under
src/).  Per the spec, `Customer.email` is globally unique, so the storage
layer rejects a duplicate email at save time; this surfaces as the
IntegrityError that the customer mutations catch.  Otherwise a fresh row is
appended. -/
def customer_save (db : DB) (name email phone : String) :
    Except RowExc (DB × Customer) :=
  if db.customers.any (fun c => c.email == email) then
    .error (.integrity "UNIQUE constraint failed: crm_customer.email")
  else
    let c : Customer := ⟨db.customers.length + 1, name, email, phone⟩
    .ok ({ db with customers := db.customers ++ [c] }, c)

/-- The try-block shared by CreateCustomer.mutate (schema.py lines 61-77) and
each BulkCreateCustomers row (lines 117-133): phone-format check when the
phone is truthy, then `validate_email`, then `full_clean` and `save`
(`full_clean` re-checks the field formats, which already passed here, so its
only effect in this flow is none; the duplicate-email rejection happens at
save, see `customer_save`).  Every ValidationError raised here carries a
plain string message. -/
def customer_row_body (db : DB) (inp : CustomerInput) (phoneMsg : String) :
    Except RowExc (DB × Customer) :=
  if pyTruthyStr inp.phone && !phone_regex_match (inp.phone.getD "") then
    .error (.validationStr phoneMsg)
  else if !validate_email_ok inp.email then
    .error (.validationStr "Enter a valid email address.")
  else
    customer_save db inp.name inp.email (inp.phone.getD "")

/-! ### CreateCustomer -/

/-- The phone-format message of CreateCustomer.mutate (quotes elided; the
message text is never inspected downstream on this path). -/
def phoneFormatMsgSingle : String :=
  "Phone number must be in format +1234567890 or 123-456-7890"

/-- CreateCustomer.mutate (schema.py lines 59-99).  The `except
ValidationError` handler reads `e.message_dict`; Django raises
AttributeError when the ValidationError was built from a plain string (it
has no `error_dict`), and that AttributeError is not caught by the later
`except` clauses of the same try, so it escapes the mutation.  The
IntegrityError handler returns the duplicate-email envelope.  The returned
store is the first component (this mutation writes at most one row, after
all checks, so on every error path the store is unchanged). -/
def createCustomer_mutate (db : DB) (inp : CustomerInput) :
    DB × Except PyExc CreateCustomerResult :=
  match customer_row_body db inp phoneFormatMsgSingle with
  | .ok (db2, c) =>
      (db2, .ok { customer := some c, errors := none, success := some true })
  | .error (.validationStr _) =>
      (db, .error (.attributeError
        "This ValidationError has no attribute message_dict"))
  | .error (.integrity _) =>
      (db, .ok { customer := none,
                 errors := some { field := "email",
                                  messages := ["Email already exists"] },
                 success := some false })

/-! ### BulkCreateCustomers -/

/-- Python `str(e)` for the exceptions a bulk row can raise. -/
def pyStrOfRowExc : RowExc → String
  | .validationStr m => pyReprList1 m
  | .integrity m => m

/-- The `error_field` inference of the bulk per-row handler (schema.py line
136), applied to `str(e).lower()`. -/
def bulkErrorField (s : String) : String :=
  if strContains s "email" then "email"
  else if strContains s "phone" then "phone"
  else "row"

/-- The row loop of BulkCreateCustomers.mutate (schema.py lines 116-147).
A successful row appends its customer; a caught IntegrityError appends a
row-tagged error and clears `success`; a caught ValidationError makes the
handler read `e.message_dict` (line 139), which raises AttributeError for a
string-built ValidationError and escapes the whole mutation. -/
def bulk_loop (db : DB) (inputs : List CustomerInput) (idx : Nat)
    (accC : List Customer) (accE : List ErrorType) (succ : Bool) :
    Except PyExc (DB × List Customer × List ErrorType × Bool) :=
  match inputs with
  | [] => .ok (db, accC, accE, succ)
  | inp :: rest =>
    match customer_row_body db inp "Invalid phone format" with
    | .ok (db2, c) => bulk_loop db2 rest (idx + 1) (accC ++ [c]) accE succ
    | .error (.validationStr _) =>
        .error (.attributeError
          "This ValidationError has no attribute message_dict")
    | .error (.integrity m) =>
        bulk_loop db rest (idx + 1) accC
          (accE ++ [{ field := bulkErrorField (lowerString m) ++ " (row " ++
                        natStr (idx + 1) ++ ")",
                      messages := [m] }]) false

/-- BulkCreateCustomers.mutate (schema.py lines 109-153).  The whole loop
runs under `transaction.atomic`, so when the AttributeError escapes, every
row written so far is rolled back and the caller sees the original store. -/
def bulkCreateCustomers_mutate (db : DB) (inputs : List CustomerInput) :
    DB × Except PyExc BulkCreateCustomersResult :=
  match bulk_loop db inputs 0 [] [] true with
  | .ok (db2, cs, es, s) =>
      (db2, .ok { customers := cs, errors := es, success := s })
  | .error e => (db, .error e)

/-! ### CreateProduct -/

/-- The field inference of the CreateProduct handler (schema.py line 185),
applied to `str(e).lower()`. -/
def productErrorField (s : String) : String :=
  if strContains s "price" then "price"
  else if strContains s "stock" then "stock"
  else "non_field_errors"

/-- The error envelope CreateProduct.mutate builds from a caught exception
whose `str` is `pyReprList1 m`. -/
def productFailure (m : String) : CreateProductResult :=
  { product := none,
    errors := some { field := productErrorField (lowerString (pyReprList1 m)),
                     messages := [pyReprList1 m] },
    success := some false }

/-- The price test of CreateProduct.mutate (schema.py line 166): Python
computes `float(input.price) <= 0`, converting the exact Decimal to an
IEEE-754 double with round-to-nearest, ties-to-even.  For an exact rational
q the rounded double is <= 0.0 exactly when q ≤ 2^-1075: the midpoint
between 0 and the smallest positive subnormal 2^-1074 is 2^-1075 and the
tie rounds to the even 0.0, so every q in (0, 2^-1075] is flushed to 0.0,
while any q > 2^-1075 rounds to a positive double (overflow gives +inf,
also positive), and any q ≤ 0 rounds to a double ≤ 0.  Written as the
integer inequality num * 2^1075 ≤ den (both sides of q ≤ 2^-1075 multiplied
by den * 2^1075 > 0) so that it evaluates; `float_le_zero_iff` proves the
two forms equal. -/
def float_le_zero (q : Rat) : Bool :=
  q.num * ((1 <<< 1075 : Nat) : Int) ≤ (q.den : Int)

/-- CreateProduct.mutate (schema.py lines 163-189): the price is rejected
when its float conversion is nonpositive (checked first), a truthy stock
must be nonnegative; otherwise the product is stored with stock defaulting
to 0.  The generic `except Exception` handler only calls `str(e)`, so
nothing escapes. -/
def createProduct_mutate (db : DB) (inp : ProductInput) :
    DB × CreateProductResult :=
  if float_le_zero inp.price then
    (db, productFailure "Price must be positive")
  else if (match inp.stock with | none => false | some s => s != 0 && s < 0) then
    (db, productFailure "Stock cannot be negative")
  else
    let p : Product := ⟨db.products.length + 1, inp.name, inp.price,
                        inp.stock.getD 0⟩
    ({ db with products := db.products ++ [p] },
     { product := some p, errors := none, success := some true })

/-! ### CreateOrder -/

/-- `Customer.objects.get(pk=...)`: the first stored customer with that id. -/
def findCustomer (db : DB) (cid : Nat) : Option Customer :=
  db.customers.find? (fun c => c.id == cid)

/-- `Product.objects.get(pk=...)`: the first stored product with that id. -/
def findProduct (db : DB) (pid : Nat) : Option Product :=
  db.products.find? (fun p => p.id == pid)

/-- The product-resolution loop of CreateOrder.mutate (schema.py lines
210-216): resolve ids left to right, aborting with the first unresolved id. -/
def resolveProducts (db : DB) : List Nat → Except Nat (List Product)
  | [] => .ok []
  | pid :: rest =>
    match findProduct db pid with
    | none => .error pid
    | some p =>
      match resolveProducts db rest with
      | .error q => .error q
      | .ok ps => .ok (p :: ps)

/-- `order.products.set(products)`: a many-to-many set keeps each product at
most once; first occurrence order is kept. -/
def dedupByIdAux : List Product → List Nat → List Product
  | [], _ => []
  | p :: ps, seen =>
    if seen.contains p.id then dedupByIdAux ps seen
    else p :: dedupByIdAux ps (p.id :: seen)

/-- Deduplicate a product list by id. -/
def dedupById (ps : List Product) : List Product := dedupByIdAux ps []

/-- Sum of a list of decimals. -/
def ratSum (l : List Rat) : Rat := l.foldl (· + ·) 0

/-- The field inference of the CreateOrder handler (schema.py line 231),
applied to `str(e).lower()`. -/
def orderErrorField (s : String) : String :=
  if strContains s "customer" then "customer_id"
  else if strContains s "product" then "product_ids"
  else "non_field_errors"

/-- The error envelope CreateOrder.mutate builds from a caught
ValidationError with plain string message `m`. -/
def orderFailure (m : String) : CreateOrderResult :=
  { order := none,
    errors := some { field := orderErrorField (lowerString (pyReprList1 m)),
                     messages := [pyReprList1 m] },
    success := some false }

/-- The message raised for the first unresolved product id. -/
def productMissingMsg (pid : Nat) : String :=
  "Product with ID " ++ natStr pid ++ " does not exist"

/-- CreateOrder.mutate (schema.py lines 199-235): resolve the customer, then
each product id in order, reject an empty product list, then — modelled from
the spec for the save step, since crm/models.py is not under src/ — persist
the order with `total_amount` computed at save time as the sum of the linked
(de-duplicated) products' prices.  All failures are raised before any write,
and the generic handler only calls `str(e)`, so failures return the store
unchanged. -/
def createOrder_mutate (db : DB) (inp : OrderInput) : DB × CreateOrderResult :=
  match findCustomer db inp.customer_id with
  | none => (db, orderFailure "Customer does not exist")
  | some customer =>
    match resolveProducts db inp.product_ids with
    | .error pid => (db, orderFailure (productMissingMsg pid))
    | .ok ps =>
      if ps.isEmpty then
        (db, orderFailure "At least one product must be specified")
      else
        let linked := dedupById ps
        let o : Order := { id := db.orders.length + 1,
                           customerId := customer.id,
                           productIds := linked.map (fun p => p.id),
                           totalAmount := ratSum (linked.map (fun p => p.price)) }
        ({ db with orders := db.orders ++ [o] },
         { order := some o, errors := none, success := some true })

/-! ### Lemmas about the string utilities -/

theorem listStartsWith_subset {n l : List Char} (h : listStartsWith n l = true) :
    ∀ a ∈ n, a ∈ l := by
  induction n generalizing l with
  | nil => intro a ha; cases ha
  | cons x xs ih =>
    cases l with
    | nil => simp [listStartsWith] at h
    | cons y ys =>
      simp only [listStartsWith, Bool.and_eq_true, beq_iff_eq] at h
      obtain ⟨hxy, hrest⟩ := h
      intro a ha
      rcases List.mem_cons.mp ha with h1 | h1
      · subst h1; rw [hxy]; exact List.mem_cons_self _ _
      · exact List.mem_cons_of_mem _ (ih hrest a h1)

theorem listStartsWith_append_left {n l : List Char} (t : List Char)
    (h : listStartsWith n l = true) : listStartsWith n (l ++ t) = true := by
  induction n generalizing l with
  | nil => simp [listStartsWith]
  | cons x xs ih =>
    cases l with
    | nil => simp [listStartsWith] at h
    | cons y ys =>
      simp only [List.cons_append, listStartsWith, Bool.and_eq_true] at h ⊢
      exact ⟨h.1, ih h.2⟩

theorem listOccursIn_subset {n hay : List Char} (hocc : listOccursIn n hay = true) :
    ∀ a ∈ n, a ∈ hay := by
  induction hay with
  | nil =>
    simp only [listOccursIn, List.isEmpty_iff] at hocc
    subst hocc; intro a ha; cases ha
  | cons c t ih =>
    simp only [listOccursIn, Bool.or_eq_true] at hocc
    rcases hocc with h1 | h1
    · exact listStartsWith_subset h1
    · intro a ha; exact List.mem_cons_of_mem _ (ih h1 a ha)

theorem listOccursIn_of_startsWith {n l : List Char}
    (h : listStartsWith n l = true) : listOccursIn n l = true := by
  cases l with
  | nil =>
    cases n with
    | nil => rfl
    | cons x xs => simp [listStartsWith] at h
  | cons c t => simp [listOccursIn, h]

theorem listOccursIn_cons_of (n : List Char) (c : Char) (t : List Char)
    (h : listOccursIn n t = true) : listOccursIn n (c :: t) = true := by
  simp [listOccursIn, h]

/-! ### Lemmas about decimal-digit characters -/

theorem digitChar_isDigit (d : Nat) (h : d < 10) :
    (Char.ofNat (48 + d)).isDigit = true := by
  interval_cases d <;> decide

theorem natDigitsAux_mem {n : Nat} {acc : List Char} {c : Char}
    (h : c ∈ natDigitsAux n acc) : c.isDigit = true ∨ c ∈ acc := by
  induction n using Nat.strong_induction_on generalizing acc with
  | _ n ih =>
    unfold natDigitsAux at h
    by_cases h10 : n < 10
    · simp only [h10, dif_pos] at h
      rcases List.mem_cons.mp h with h1 | h1
      · subst h1; exact Or.inl (digitChar_isDigit _ (Nat.mod_lt _ (by omega)))
      · exact Or.inr h1
    · simp only [h10, dif_neg, not_false_iff] at h
      rcases ih (n / 10) (Nat.div_lt_self (by omega) (by omega)) h with h1 | h1
      · exact Or.inl h1
      · rcases List.mem_cons.mp h1 with h2 | h2
        · subst h2
          exact Or.inl (digitChar_isDigit _ (Nat.mod_lt _ (by omega)))
        · exact Or.inr h2

theorem toLower_of_isDigit {c : Char} (h : c.isDigit = true) :
    Char.toLower c = c := by
  simp only [Char.isDigit, Bool.and_eq_true, decide_eq_true_eq] at h
  obtain ⟨h1, h2⟩ := h
  have h2n : c.val.toNat ≤ (57 : UInt32).toNat := h2
  have h57 : (57 : UInt32).toNat = 57 := by decide
  unfold Char.toLower
  rw [if_neg]
  rintro ⟨ha, hb⟩
  have : c.toNat = c.val.toNat := rfl
  omega

theorem list_map_id_of_mem {α : Type} {f : α → α} {l : List α}
    (h : ∀ a ∈ l, f a = a) : l.map f = l := by
  induction l with
  | nil => rfl
  | cons x xs ih =>
    simp only [List.map_cons, h x (List.mem_cons_self _ _)]
    rw [ih fun a ha => h a (List.mem_cons_of_mem _ ha)]

theorem natDigits_map_toLower (n : Nat) :
    (natDigitsAux n []).map Char.toLower = natDigitsAux n [] :=
  list_map_id_of_mem fun c hc => by
    rcases natDigitsAux_mem hc with h | h
    · exact toLower_of_isDigit h
    · cases h

/-! ### Evaluating the CreateOrder error-field inference -/


theorem natStr_data (n : Nat) : (natStr n).data = natDigitsAux n [] := rfl

theorem squote_data : squote.data = [Char.ofNat 39] := rfl

theorem lower_productMissing_data (pid : Nat) :
    (lowerString (pyReprList1 (productMissingMsg pid))).data =
      '[' :: Char.ofNat 39 :: ("product with id ".data ++
        (natDigitsAux pid [] ++
          (" does not exist".data ++ [Char.ofNat 39, ']']))) := by
  show (pyReprList1 (productMissingMsg pid)).data.map Char.toLower = _
  simp only [pyReprList1, productMissingMsg, String.data_append, natStr_data,
    squote_data, List.map_append, List.append_assoc]
  rw [natDigits_map_toLower]
  rw [show "[".data.map Char.toLower = ['['] from by decide]
  rw [show [Char.ofNat 39].map Char.toLower = [Char.ofNat 39] from by decide]
  rw [show "Product with ID ".data.map Char.toLower = "product with id ".data
      from by decide]
  rw [show " does not exist".data.map Char.toLower = " does not exist".data
      from by decide]
  rw [show "]".data.map Char.toLower = [']'] from by decide]
  simp [List.append_assoc]

theorem createOrder_mutate_ok {db : DB} {inp : OrderInput} {c : Customer}
    {ps : List Product}
    (hc : findCustomer db inp.customer_id = some c)
    (hr : resolveProducts db inp.product_ids = Except.ok ps)
    (hne : ps ≠ []) :
    createOrder_mutate db inp =
      ({ db with orders := db.orders ++
          [{ id := db.orders.length + 1, customerId := c.id,
             productIds := (dedupById ps).map (fun p => p.id),
             totalAmount := ratSum ((dedupById ps).map (fun p => p.price)) }] },
       { order := some
            { id := db.orders.length + 1, customerId := c.id,
              productIds := (dedupById ps).map (fun p => p.id),
              totalAmount := ratSum ((dedupById ps).map (fun p => p.price)) },
         errors := none, success := some true }) := by
  have hE : ps.isEmpty = false := by simpa [List.isEmpty_iff] using hne
  unfold createOrder_mutate
  rw [hc, hr]
  simp [hE]

theorem productMissing_no_customer (pid : Nat) :
    strContains (lowerString (pyReprList1 (productMissingMsg pid)))
      "customer" = false := by
  by_contra hcon
  rw [Bool.not_eq_false] at hcon
  have hm : 'm' ∈ (lowerString (pyReprList1 (productMissingMsg pid))).data :=
    listOccursIn_subset hcon 'm' (by decide)
  rw [lower_productMissing_data] at hm
  rcases List.mem_cons.mp hm with h | hm
  · exact absurd h (by decide)
  rcases List.mem_cons.mp hm with h | hm
  · exact absurd h (by decide)
  rcases List.mem_append.mp hm with h | hm
  · exact absurd h (by decide)
  rcases List.mem_append.mp hm with h | hm
  · have hd : Char.isDigit 'm' = true := by
      rcases natDigitsAux_mem h with h1 | h1
      · exact h1
      · cases h1
    exact absurd hd (by decide)
  · exact absurd hm (by decide)

theorem productMissing_has_product (pid : Nat) :
    strContains (lowerString (pyReprList1 (productMissingMsg pid)))
      "product" = true := by
  unfold strContains
  rw [lower_productMissing_data]
  apply listOccursIn_cons_of
  apply listOccursIn_cons_of
  apply listOccursIn_of_startsWith
  apply listStartsWith_append_left
  decide

theorem orderFailure_productMissing (pid : Nat) :
    orderFailure (productMissingMsg pid) =
      { order := none,
        errors := some { field := "product_ids",
                         messages := [pyReprList1 (productMissingMsg pid)] },
        success := some false } := by
  unfold orderFailure orderErrorField
  rw [productMissing_no_customer, productMissing_has_product]
  simp

theorem orderFailure_customer_eval :
    orderFailure "Customer does not exist" =
      { order := none,
        errors := some { field := "customer_id",
                         messages := [pyReprList1 "Customer does not exist"] },
        success := some false } := by decide

theorem orderFailure_empty_eval :
    orderFailure "At least one product must be specified" =
      { order := none,
        errors := some { field := "product_ids",
                         messages :=
                           [pyReprList1 "At least one product must be specified"] },
        success := some false } := by decide

theorem orderFailure_success (m : String) :
    (orderFailure m).success = some false := rfl

/-! ### Shape lemmas for CreateOrder.mutate -/

theorem createOrder_mutate_customer_none {db : DB} {inp : OrderInput}
    (h : findCustomer db inp.customer_id = none) :
    createOrder_mutate db inp = (db, orderFailure "Customer does not exist") := by
  unfold createOrder_mutate
  rw [h]

theorem createOrder_mutate_product_error {db : DB} {inp : OrderInput}
    {c : Customer} {pid : Nat}
    (hc : findCustomer db inp.customer_id = some c)
    (hr : resolveProducts db inp.product_ids = Except.error pid) :
    createOrder_mutate db inp = (db, orderFailure (productMissingMsg pid)) := by
  unfold createOrder_mutate
  rw [hc, hr]

theorem createOrder_mutate_empty {db : DB} {inp : OrderInput} {c : Customer}
    (hc : findCustomer db inp.customer_id = some c)
    (hr : resolveProducts db inp.product_ids = Except.ok []) :
    createOrder_mutate db inp =
      (db, orderFailure "At least one product must be specified") := by
  unfold createOrder_mutate
  rw [hc, hr]
  rfl

/-! ### Lemmas about product resolution -/

theorem resolveProducts_error_mem {db : DB} {pids : List Nat} {q : Nat}
    (h : resolveProducts db pids = Except.error q) :
    q ∈ pids ∧ findProduct db q = none := by
  induction pids with
  | nil => simp [resolveProducts] at h
  | cons p rest ih =>
    unfold resolveProducts at h
    cases hf : findProduct db p with
    | none =>
      rw [hf] at h
      simp only [Except.error.injEq] at h
      subst h
      exact ⟨List.mem_cons_self _ _, hf⟩
    | some prod =>
      rw [hf] at h
      cases hr : resolveProducts db rest with
      | error e =>
        rw [hr] at h
        simp only [Except.error.injEq] at h
        subst h
        obtain ⟨hmem, hnone⟩ := ih hr
        exact ⟨List.mem_cons_of_mem _ hmem, hnone⟩
      | ok ps =>
        rw [hr] at h
        simp at h

theorem resolveProducts_error_of_mem {db : DB} {pids : List Nat} {q : Nat}
    (hq : q ∈ pids) (hn : findProduct db q = none) :
    ∃ e, resolveProducts db pids = Except.error e := by
  induction pids with
  | nil => cases hq
  | cons p rest ih =>
    unfold resolveProducts
    cases hf : findProduct db p with
    | none => exact ⟨p, rfl⟩
    | some prod =>
      have hq' : q ∈ rest := by
        rcases List.mem_cons.mp hq with h1 | h1
        · subst h1; rw [hf] at hn; cases hn
        · exact h1
      obtain ⟨e, he⟩ := ih hq'
      rw [he]
      exact ⟨e, rfl⟩

theorem resolveProducts_ok_length {db : DB} {pids : List Nat}
    {ps : List Product}
    (h : resolveProducts db pids = Except.ok ps) : ps.length = pids.length := by
  induction pids generalizing ps with
  | nil =>
    unfold resolveProducts at h
    simp only [Except.ok.injEq] at h
    subst h
    rfl
  | cons p rest ih =>
    unfold resolveProducts at h
    cases hf : findProduct db p with
    | none =>
      rw [hf] at h
      simp at h
    | some prod =>
      rw [hf] at h
      cases hr : resolveProducts db rest with
      | error e =>
        rw [hr] at h
        simp at h
      | ok ps' =>
        rw [hr] at h
        simp only [Except.ok.injEq] at h
        subst h
        simp [ih hr]

/-! ### Shape lemmas for CreateCustomer.mutate -/

theorem createCustomer_mutate_fresh {db : DB} {inp : CustomerInput}
    (hph : (pyTruthyStr inp.phone &&
        !phone_regex_match (inp.phone.getD "")) = false)
    (he : validate_email_ok inp.email = true)
    (hany : db.customers.any (fun c => c.email == inp.email) = false) :
    createCustomer_mutate db inp =
      ({ db with customers := db.customers ++
          [⟨db.customers.length + 1, inp.name, inp.email, inp.phone.getD ""⟩] },
       Except.ok
         { customer :=
             some ⟨db.customers.length + 1, inp.name, inp.email,
               inp.phone.getD ""⟩,
           errors := none, success := some true }) := by
  unfold createCustomer_mutate customer_row_body customer_save
  simp [hph, he, hany]

theorem createCustomer_mutate_dup {db : DB} {inp : CustomerInput}
    (hph : (pyTruthyStr inp.phone &&
        !phone_regex_match (inp.phone.getD "")) = false)
    (he : validate_email_ok inp.email = true)
    (hdup : db.customers.any (fun c => c.email == inp.email) = true) :
    createCustomer_mutate db inp =
      (db, Except.ok { customer := none,
                       errors := some ⟨"email", ["Email already exists"]⟩,
                       success := some false }) := by
  unfold createCustomer_mutate customer_row_body customer_save
  simp [hph, he, hdup]

theorem any_email_eq_false_of_all_not {l : List Customer} {e : String}
    (h : l.all (fun c => !(c.email == e)) = true) :
    l.any (fun c => c.email == e) = false := by
  rw [Bool.eq_false_iff]
  intro hcon
  rw [List.any_eq_true] at hcon
  obtain ⟨c, hcmem, hceq⟩ := hcon
  have := List.all_eq_true.mp h c hcmem
  simp [hceq] at this

/-! ### Claim theorems -/

/-- C9: bulkCreateCustomers called with an empty inputs list returns
customers = [], errors = [], success = true and leaves the store unchanged. -/
theorem bulkCreateCustomers_empty_inputs (db : DB) :
    bulkCreateCustomers_mutate db [] =
      (db, Except.ok { customers := [], errors := [], success := true }) := rfl

/-- C1 (divergence witness): on 3 inputs whose second row has an invalid
email, BulkCreateCustomers.mutate does not return the claimed partition.
The per-row handler evaluates `e.message_dict` on a string-built
ValidationError, raising AttributeError; the whole mutation dies and the
atomic transaction rolls back row 1, so the store is unchanged and no
result object is produced. -/
theorem bulkCreateCustomers_invalid_email_row_crashes :
    bulkCreateCustomers_mutate ⟨[], [], []⟩
      [{ name := "Alice", email := "alice@example.com" },
       { name := "Bob", email := "not-an-email" },
       { name := "Carol", email := "carol@example.com" }] =
      (⟨[], [], []⟩, Except.error (PyExc.attributeError
        "This ValidationError has no attribute message_dict")) := rfl

/-- C4 (divergence witness): a phone-format failure and an email-format
failure in CreateCustomer.mutate both escape as an uncaught AttributeError
(raised by `e.message_dict` inside the `except ValidationError` handler)
instead of returning the structured error envelope; the store is left
unchanged. -/
theorem createCustomer_validation_failure_escapes :
    (createCustomer_mutate ⟨[], [], []⟩
        { name := "Alice", email := "alice@example.com",
          phone := some "12" }).2 =
      Except.error (PyExc.attributeError
        "This ValidationError has no attribute message_dict") ∧
    (createCustomer_mutate ⟨[], [], []⟩
        { name := "Bob", email := "not-an-email" }).2 =
      Except.error (PyExc.attributeError
        "This ValidationError has no attribute message_dict") ∧
    (createCustomer_mutate ⟨[], [], []⟩
        { name := "Alice", email := "alice@example.com",
          phone := some "12" }).1 = ⟨[], [], []⟩ :=
  ⟨rfl, rfl, rfl⟩

/-- C10: when the customerId does not resolve, createOrder fails with field
customer_id and the fixed customer error, independently of productIds
(the result does not mention the product ids at all, so they are never
consulted and no product error can be reported). -/
theorem createOrder_customer_checked_first (db : DB) (cid : Nat)
    (pids : List Nat) (h : findCustomer db cid = none) :
    createOrder_mutate db ⟨cid, pids⟩ =
      (db, { order := none,
             errors := some { field := "customer_id",
                              messages := [pyReprList1 "Customer does not exist"] },
             success := some false }) := by
  rw [@createOrder_mutate_customer_none db ⟨cid, pids⟩ h,
    orderFailure_customer_eval]

/-- Witness for C10 at a concrete store and input. -/
theorem createOrder_customer_checked_first_witness :
    createOrder_mutate ⟨[⟨1, "Ada", "ada@crm.io", ""⟩], [⟨1, "P", 10, 0⟩], []⟩
        ⟨7, [1, 999]⟩ =
      (⟨[⟨1, "Ada", "ada@crm.io", ""⟩], [⟨1, "P", 10, 0⟩], []⟩,
       { order := none,
         errors := some { field := "customer_id",
                          messages := [pyReprList1 "Customer does not exist"] },
         success := some false }) :=
  createOrder_customer_checked_first _ 7 [1, 999] (by decide)

/-- C5: a failed createOrder call leaves the persistent store unchanged:
every failure is raised before any write. -/
theorem createOrder_failure_leaves_state_unchanged (db : DB) (inp : OrderInput)
    (h : (createOrder_mutate db inp).2.success = some false) :
    (createOrder_mutate db inp).1 = db := by
  cases hc : findCustomer db inp.customer_id with
  | none => rw [createOrder_mutate_customer_none hc]
  | some c =>
    cases hr : resolveProducts db inp.product_ids with
    | error pid => rw [createOrder_mutate_product_error hc hr]
    | ok ps =>
      rcases eq_or_ne ps [] with rfl | hne
      · rw [createOrder_mutate_empty hc hr]
      · exfalso
        rw [createOrder_mutate_ok hc hr hne] at h
        simp at h

/-- Witness for C5 at a concrete failing call (empty product list). -/
theorem createOrder_failure_leaves_state_unchanged_witness :
    (createOrder_mutate ⟨[⟨1, "Ada", "ada@crm.io", ""⟩], [], []⟩
        ⟨1, []⟩).2.success = some false ∧
    (createOrder_mutate ⟨[⟨1, "Ada", "ada@crm.io", ""⟩], [], []⟩ ⟨1, []⟩).1 =
      ⟨[⟨1, "Ada", "ada@crm.io", ""⟩], [], []⟩ :=
  ⟨by decide,
   createOrder_failure_leaves_state_unchanged _ ⟨1, []⟩ (by decide)⟩

/-- C7 (counterexample): an input with stock < 0 — but also price <= 0 —
fails with error field "price", not "stock": the price check runs first, so
the claim "stock < 0 always fails with field stock" is false as stated. -/
theorem createProduct_negative_stock_fails_with_price_field :
    ((createProduct_mutate ⟨[], [], []⟩
        { name := "Widget", price := -1, stock := some (-1) }).2.errors).map
      ErrorType.field = some "price" ∧
    (createProduct_mutate ⟨[], [], []⟩
        { name := "Widget", price := -1, stock := some (-1) }).2.success =
      some false ∧
    ((createProduct_mutate ⟨[], [], []⟩
        { name := "Widget", price := -1, stock := some (-1) }).2.errors).map
      ErrorType.field ≠ some "stock" :=
  ⟨rfl, rfl, by decide⟩

/-- The integer inequality of `float_le_zero` is exactly the mathematical
threshold q ≤ 2^-1075. -/
theorem float_le_zero_iff (q : Rat) :
    float_le_zero q = true ↔ q ≤ 1 / 2 ^ 1075 := by
  unfold float_le_zero
  rw [decide_eq_true_eq]
  rw [show ((1 <<< 1075 : Nat) : Int) = 2 ^ 1075 by norm_num [Nat.shiftLeft_eq]]
  rw [show (1 : ℚ) / 2 ^ 1075 = ((1 : ℤ) : ℚ) / ((2 ^ 1075 : ℕ) : ℚ) by
    push_cast
    ring]
  rw [show q ≤ ((1 : ℤ) : ℚ) / ((2 ^ 1075 : ℕ) : ℚ) ↔
      (q.num : ℚ) / (q.den : ℚ) ≤ ((1 : ℤ) : ℚ) / ((2 ^ 1075 : ℕ) : ℚ) by
    rw [Rat.num_div_den]]
  rw [div_le_div_iff (by exact_mod_cast q.den_pos) (by positivity)]
  norm_cast
  rw [one_mul]

/-- C7 (amended): price <= 0 always fails with field "price" and
success=false (the float conversion of a nonpositive price is nonpositive);
stock < 0 with a price whose float conversion is positive — that is,
price > 2^-1075 — fails with field "stock" and success=false. -/
theorem createProduct_validation_fields (db : DB) (inp : ProductInput) :
    (inp.price ≤ 0 →
      (createProduct_mutate db inp).2.success = some false ∧
      ((createProduct_mutate db inp).2.errors).map ErrorType.field =
        some "price") ∧
    (1 / 2 ^ 1075 < inp.price → ∀ s, inp.stock = some s → s < 0 →
      (createProduct_mutate db inp).2.success = some false ∧
      ((createProduct_mutate db inp).2.errors).map ErrorType.field =
        some "stock") := by
  constructor
  · intro hp
    have hf : float_le_zero inp.price = true :=
      (float_le_zero_iff inp.price).mpr (le_trans hp (by positivity))
    unfold createProduct_mutate
    rw [if_pos hf]
    exact ⟨rfl, rfl⟩
  · intro hp s hs hneg
    have hf : float_le_zero inp.price = false := by
      rw [Bool.eq_false_iff]
      intro hcon
      exact absurd ((float_le_zero_iff inp.price).mp hcon) (not_le.mpr hp)
    have h1 : ¬ float_le_zero inp.price = true := by
      rw [hf]
      exact Bool.false_ne_true
    have h2 : (s != 0 && decide (s < 0)) = true := by
      simp only [Bool.and_eq_true, bne_iff_ne, ne_eq, decide_eq_true_eq]
      exact ⟨by omega, hneg⟩
    unfold createProduct_mutate
    rw [hs, if_neg h1]
    simp only [h2, if_true]
    exact ⟨rfl, rfl⟩

/-- Witness for C7's amended theorem at concrete inputs. -/
theorem createProduct_validation_fields_witness :
    ((createProduct_mutate ⟨[], [], []⟩
        { name := "A", price := -2 }).2.success = some false ∧
      ((createProduct_mutate ⟨[], [], []⟩
          { name := "A", price := -2 }).2.errors).map ErrorType.field =
        some "price") ∧
    ((createProduct_mutate ⟨[], [], []⟩
        { name := "B", price := 3, stock := some (-4) }).2.success =
        some false ∧
      ((createProduct_mutate ⟨[], [], []⟩
          { name := "B", price := 3, stock := some (-4) }).2.errors).map
        ErrorType.field = some "stock") :=
  ⟨(createProduct_validation_fields ⟨[], [], []⟩ _).1 (by norm_num),
   (createProduct_validation_fields ⟨[], [], []⟩ _).2
     (by
       have h1 : (1 : ℚ) / 2 ^ 1075 ≤ 1 := by
         rw [div_le_one (by positivity)]
         exact one_le_pow₀ (by norm_num)
       linarith)
     (-4) rfl (by norm_num)⟩

/-- C3: createOrder fails exactly when the customer is unresolved, some
product id is unresolved, or the product list is empty; the customer case
is tagged customer_id, the first unresolved product id is named in a
product_ids-tagged error, and the empty list yields the product_ids-tagged
empty-list error. -/
theorem createOrder_failure_characterization (db : DB) (inp : OrderInput) :
    ((createOrder_mutate db inp).2.success = some false ↔
      (findCustomer db inp.customer_id = none ∨
       (∃ pid ∈ inp.product_ids, findProduct db pid = none) ∨
       inp.product_ids = [])) ∧
    (findCustomer db inp.customer_id = none →
      ((createOrder_mutate db inp).2.errors).map ErrorType.field =
        some "customer_id") ∧
    (∀ pid, findCustomer db inp.customer_id ≠ none →
      resolveProducts db inp.product_ids = Except.error pid →
      (createOrder_mutate db inp).2.errors =
        some { field := "product_ids",
               messages := [pyReprList1 (productMissingMsg pid)] }) ∧
    (findCustomer db inp.customer_id ≠ none → inp.product_ids = [] →
      (createOrder_mutate db inp).2.errors =
        some { field := "product_ids",
               messages :=
                 [pyReprList1 "At least one product must be specified"] }) := by
  refine ⟨?_, ?_, ?_, ?_⟩
  · cases hc : findCustomer db inp.customer_id with
    | none =>
      rw [createOrder_mutate_customer_none hc]
      simp [orderFailure_success]
    | some c =>
      cases hr : resolveProducts db inp.product_ids with
      | error pid =>
        rw [createOrder_mutate_product_error hc hr]
        obtain ⟨hmem, hnone⟩ := resolveProducts_error_mem hr
        constructor
        · intro _
          exact Or.inr (Or.inl ⟨pid, hmem, hnone⟩)
        · intro _
          rfl
      | ok ps =>
        rcases eq_or_ne ps [] with rfl | hne
        · have hpids : inp.product_ids = [] := by
            have hl := resolveProducts_ok_length hr
            simpa using hl.symm
          rw [createOrder_mutate_empty hc hr]
          simp [orderFailure_success, hpids]
        · rw [createOrder_mutate_ok hc hr hne]
          constructor
          · intro hfalse
            simp at hfalse
          · rintro (h1 | ⟨pid, hmem, hnone⟩ | h1)
            · simp at h1
            · obtain ⟨e, he⟩ := resolveProducts_error_of_mem hmem hnone
              rw [hr] at he
              simp at he
            · rw [h1] at hr
              have hps : (Except.ok [] : Except Nat (List Product)) =
                  Except.ok ps := by
                rw [← hr]
                rfl
              simp only [Except.ok.injEq] at hps
              exact absurd hps.symm hne
  · intro h
    rw [createOrder_mutate_customer_none h, orderFailure_customer_eval]
    rfl
  · intro pid hcne hr
    cases hcv : findCustomer db inp.customer_id with
    | none => exact absurd hcv hcne
    | some c =>
      rw [createOrder_mutate_product_error hcv hr, orderFailure_productMissing]
  · intro hcne hpids
    cases hcv : findCustomer db inp.customer_id with
    | none => exact absurd hcv hcne
    | some c =>
      have hr : resolveProducts db inp.product_ids = Except.ok [] := by
        rw [hpids]
        rfl
      rw [createOrder_mutate_empty hcv hr, orderFailure_empty_eval]

/-- Witness for C3 at a concrete store (no customer 3): the call fails. -/
theorem createOrder_failure_characterization_witness :
    (createOrder_mutate ⟨[], [], []⟩ ⟨3, [7]⟩).2.success = some false :=
  (createOrder_failure_characterization ⟨[], [], []⟩ ⟨3, [7]⟩).1.mpr
    (Or.inl (by decide))

/-- C2: a successful createOrder computes the order's total_amount as the
sum of the linked (resolved, de-duplicated) products' prices, and links
exactly those products. -/
theorem createOrder_totalAmount_eq_sum (db : DB) (inp : OrderInput)
    (ps : List Product) (o : Order)
    (hres : resolveProducts db inp.product_ids = Except.ok ps)
    (ho : (createOrder_mutate db inp).2.order = some o) :
    o.totalAmount = ratSum ((dedupById ps).map (fun p => p.price)) ∧
    o.productIds = (dedupById ps).map (fun p => p.id) := by
  cases hc : findCustomer db inp.customer_id with
  | none =>
    rw [createOrder_mutate_customer_none hc] at ho
    simp [orderFailure] at ho
  | some c =>
    rcases eq_or_ne ps [] with rfl | hne
    · rw [createOrder_mutate_empty hc hres] at ho
      simp [orderFailure] at ho
    · rw [createOrder_mutate_ok hc hres hne] at ho
      simp only [Option.some.injEq] at ho
      subst ho
      exact ⟨rfl, rfl⟩

/-- Witness for C2: two products priced 10.00 and 15.50; the created order
carries their sum as total_amount, which equals 25.50 (= 51/2). -/
theorem createOrder_totalAmount_eq_sum_witness :
    ((⟨1, 1, [1, 2],
        ratSum ((dedupById [⟨1, "Basic", 10, 5⟩, ⟨2, "Plus", 31 / 2, 5⟩]).map
          (fun p => p.price))⟩ : Order).totalAmount =
      ratSum ((dedupById [⟨1, "Basic", 10, 5⟩, ⟨2, "Plus", 31 / 2, 5⟩]).map
        (fun p => p.price)) ∧
     (⟨1, 1, [1, 2],
        ratSum ((dedupById [⟨1, "Basic", 10, 5⟩, ⟨2, "Plus", 31 / 2, 5⟩]).map
          (fun p => p.price))⟩ : Order).productIds =
      (dedupById [⟨1, "Basic", 10, 5⟩, ⟨2, "Plus", 31 / 2, 5⟩]).map
        (fun p => p.id)) ∧
    ratSum ((dedupById [⟨1, "Basic", 10, 5⟩, ⟨2, "Plus", 31 / 2, 5⟩]).map
      (fun p => p.price)) = 51 / 2 :=
  ⟨createOrder_totalAmount_eq_sum
      ⟨[⟨1, "Ada", "ada@crm.io", ""⟩],
       [⟨1, "Basic", 10, 5⟩, ⟨2, "Plus", 31 / 2, 5⟩], []⟩
      ⟨1, [1, 2]⟩ _ _ rfl rfl,
   by norm_num [ratSum, dedupById, dedupByIdAux]⟩

/-- C6: with a valid fresh input, the first createCustomer call succeeds;
repeating it with the same email fails with the duplicate-email envelope
(field "email", success=false), leaves the store unchanged, and exactly one
stored customer carries that email. -/
theorem createCustomer_duplicate_email (db : DB) (inp : CustomerInput)
    (hph : (pyTruthyStr inp.phone &&
        !phone_regex_match (inp.phone.getD "")) = false)
    (he : validate_email_ok inp.email = true)
    (hfr : db.customers.all (fun c => !(c.email == inp.email)) = true) :
    ∃ db1 c1,
      createCustomer_mutate db inp =
        (db1, Except.ok { customer := some c1, errors := none,
                          success := some true }) ∧
      createCustomer_mutate db1 inp =
        (db1, Except.ok { customer := none,
                          errors := some ⟨"email", ["Email already exists"]⟩,
                          success := some false }) ∧
      (db1.customers.filter (fun c => c.email == inp.email)).length = 1 := by
  have hany := any_email_eq_false_of_all_not hfr
  refine ⟨{ db with customers := db.customers ++
      [⟨db.customers.length + 1, inp.name, inp.email, inp.phone.getD ""⟩] },
    ⟨db.customers.length + 1, inp.name, inp.email, inp.phone.getD ""⟩,
    createCustomer_mutate_fresh hph he hany, ?_, ?_⟩
  · apply createCustomer_mutate_dup hph he
    rw [List.any_eq_true]
    exact ⟨⟨db.customers.length + 1, inp.name, inp.email, inp.phone.getD ""⟩,
      by simp, by simp⟩
  · show ((db.customers ++
        [(⟨db.customers.length + 1, inp.name, inp.email,
          inp.phone.getD ""⟩ : Customer)]).filter
            (fun c => c.email == inp.email)).length = 1
    rw [List.filter_append]
    have h1 : db.customers.filter (fun c => c.email == inp.email) = [] := by
      rw [List.filter_eq_nil_iff]
      intro c hc
      have := List.all_eq_true.mp hfr c hc
      simpa using this
    rw [h1]
    simp

/-- Witness for C6 at a concrete input on the empty store. -/
theorem createCustomer_duplicate_email_witness :
    ∃ db1 c1,
      createCustomer_mutate ⟨[], [], []⟩ { name := "Ada", email := "ada@crm.io" } =
        (db1, Except.ok { customer := some c1, errors := none,
                          success := some true }) ∧
      createCustomer_mutate db1 { name := "Ada", email := "ada@crm.io" } =
        (db1, Except.ok { customer := none,
                          errors := some ⟨"email", ["Email already exists"]⟩,
                          success := some false }) ∧
      (db1.customers.filter (fun c => c.email == "ada@crm.io")).length = 1 :=
  createCustomer_duplicate_email ⟨[], [], []⟩ _ (by decide) (by decide)
    (by decide)

/-- C8: with a valid email, a phone matching the 3-3-4 pattern, and the
email not yet stored, createCustomer succeeds and stores the input email
unchanged (the created row's email is the input email, exactly). -/
theorem createCustomer_valid_input_succeeds (db : DB)
    (name email p : String)
    (hp : phone_regex_match p = true)
    (he : validate_email_ok email = true)
    (hfr : db.customers.all (fun c => !(c.email == email)) = true) :
    createCustomer_mutate db ⟨name, email, some p⟩ =
      ({ db with customers := db.customers ++
          [⟨db.customers.length + 1, name, email, p⟩] },
       Except.ok
         { customer := some ⟨db.customers.length + 1, name, email, p⟩,
           errors := none, success := some true }) ∧
    (⟨db.customers.length + 1, name, email, p⟩ : Customer).email = email := by
  have hany := any_email_eq_false_of_all_not hfr
  refine ⟨?_, rfl⟩
  exact @createCustomer_mutate_fresh db ⟨name, email, some p⟩
    (by simp [pyTruthyStr, hp]) he hany

/-- Witness for C8 at a concrete input on the empty store. -/
theorem createCustomer_valid_input_succeeds_witness :
    createCustomer_mutate ⟨[], [], []⟩
        ⟨"Grace", "grace@crm.io", some "123-456-7890"⟩ =
      (⟨[⟨1, "Grace", "grace@crm.io", "123-456-7890"⟩], [], []⟩,
       Except.ok
         { customer := some ⟨1, "Grace", "grace@crm.io", "123-456-7890"⟩,
           errors := none, success := some true }) ∧
    (⟨1, "Grace", "grace@crm.io", "123-456-7890"⟩ : Customer).email =
      "grace@crm.io" :=
  createCustomer_valid_input_succeeds ⟨[], [], []⟩ _ _ _ (by decide)
    (by decide) (by decide)
